import Mathlib

/-!
Verification of the sava bookmark-ingestion subsystem.

This file shallowly embeds the ingestion core of the repository:

* `api/models.py` — the relational schema (`Bookmark`, `YouTubeDetails`)
  and its constraints;
* `api/ingestors/registry_backup.py` — the orchestrator
  (`add_bookmark`, `_create_basic_bookmark`, `_create_new_bookmark`,
  `_create_youtube_details`, `_format_bookmark_response`,
  `_detect_platform`, `get_ingestor`, `get_tiktok_ingestors`,
  `INGESTORS`);
* `api/ingestors/youtube.py`, `api/ingestors/tiktok.py`,
  `api/ingestors/tiktok_api.py`, `api/ingestors/social.py` — the
  per-platform ingestors (their `can_handle` and `normalize_metadata`
  logic, and for the TikTok-API ingestor also its process-level
  cache/availability state machine);
* `api/main.py` — the HTTP boundary's error→status mapping and its
  bookmark-listing response builder.

Extraction performs network/browser I/O; it is embedded as an oracle
giving the outcome (raw metadata or a raised error message) of each
ingestor's `extract_metadata` call.  Everything else is translated
directly.  Python `dict` raw payloads are embedded as typed records
matching the shapes the extractors actually produce; Python `str`
operations are re-implemented on `List Char` so that the kernel can
evaluate them.
-/

namespace Sava

/-- Python's `c in '\w'` word-character test for the ASCII inputs used in
hashtag regexes (`#(\w+)`): letters, digits or underscore. -/
def wordChar (c : Char) : Bool :=
  c.isAlphanum || c == '_'

/-- `sub.isPrefixOf l`-based occurrence test: Python's `sub in s` on the
character lists. -/
def subOccurs (sub : List Char) : List Char → Bool
  | [] => sub.isEmpty
  | c :: rest => sub.isPrefixOf (c :: rest) || subOccurs sub rest

/-- Python `sub in s` (substring containment). -/
def pyContains (s sub : String) : Bool :=
  subOccurs sub.data s.data

/-- Python `s.lower()` (for the ASCII URLs and messages this code handles). -/
def pyLower (s : String) : String :=
  String.mk (s.data.map Char.toLower)

/-- Python `s.strip()` with no argument: remove leading and trailing
whitespace. -/
def pyStrip (s : String) : String :=
  String.mk (((s.data.dropWhile Char.isWhitespace).reverse.dropWhile
    Char.isWhitespace).reverse)

/-- Python `s[:n]` for `n ≥ 0`. -/
def pyTake (s : String) (n : Nat) : String :=
  String.mk (s.data.take n)

/-- Python `str.title()` restricted to the single lowercase words it is
applied to here (platform tags such as `"tiktok"`): capitalize the first
character, lowercase the rest. -/
def pyTitleWord (s : String) : String :=
  match s.data with
  | [] => ""
  | c :: rest => String.mk (c.toUpper :: rest.map Char.toLower)

/-- Python truthiness of an optional string: `None` and `""` are falsy. -/
def truthyStr : Option String → Bool
  | none => false
  | some s => s ≠ ""

/-- Python `a or b` on optional strings (used as `raw.get(k) or default`). -/
def pyOrStr (a b : Option String) : Option String :=
  if truthyStr a then a else b

/-- Split a character list at the first occurrence of `sep`, returning the
part before and the part after. -/
def splitOnSub (sep : List Char) : List Char → Option (List Char × List Char)
  | [] => if sep.isEmpty then some ([], []) else none
  | c :: rest =>
    if sep.isPrefixOf (c :: rest) then some ([], (c :: rest).drop sep.length)
    else
      match splitOnSub sep rest with
      | some (a, b) => some (c :: a, b)
      | none => none

/-- Valid `urllib.parse` scheme: a letter followed by letters, digits,
`+`, `-` or `.`. -/
def schemeOk : List Char → Bool
  | [] => false
  | c :: rest => c.isAlpha && rest.all (fun d => d.isAlphanum || d == '+' || d == '-' || d == '.')

/-- `urllib.parse.urlparse` restricted to what `validate_url`/`can_handle`
read: the `(scheme, netloc)` pair.  An absolute URL `scheme://netloc/...`
yields its scheme and its netloc (up to the first `/`, `?` or `#`); inputs
without a valid `scheme://` part have empty scheme or netloc, which is all
the callers test. -/
def urlSchemeNetloc (url : String) : String × String :=
  match splitOnSub "://".data url.data with
  | some (sch, rest) =>
    if schemeOk sch then
      (String.mk sch, String.mk (rest.takeWhile (fun c => c ≠ '/' && c ≠ '?' && c ≠ '#')))
    else ("", "")
  | none => ("", "")

/-- `BaseIngestor.validate_url` (`api/ingestors/base.py`):
`all([result.scheme, result.netloc])`. -/
def validate_url (url : String) : Bool :=
  (urlSchemeNetloc url).1 ≠ "" && (urlSchemeNetloc url).2 ≠ ""

/-- One pass of `re.findall(r'#(\w+)', desc)` as a character-level state
machine: the state is `none` outside a candidate match, or `some acc`
with the (reversed) word characters captured since the most recent `#`.
A run of word characters after a `#` is emitted as one captured tag; a
`#` followed by no word character captures nothing, exactly as the regex
scans. -/
def findHashtagsAux : Option (List Char) → List Char → List String
  | some acc, [] => if acc.isEmpty then [] else [String.mk acc.reverse]
  | none, [] => []
  | some acc, c :: rest =>
    if wordChar c then findHashtagsAux (some (c :: acc)) rest
    else
      (if acc.isEmpty then [] else [String.mk acc.reverse]) ++
        (if c == '#' then findHashtagsAux (some []) rest
         else findHashtagsAux none rest)
  | none, c :: rest =>
    if c == '#' then findHashtagsAux (some []) rest
    else findHashtagsAux none rest

/-- `re.findall(r'#(\w+)', desc)`. -/
def findHashtags (desc : String) : List String :=
  findHashtagsAux none desc.data

/-- `re.sub(r'#\w+', '', desc)` as the same state machine: a `#` followed
by at least one word character is deleted together with that word run;
every other character (including a bare `#`) is kept. -/
def stripHashtagsAux : Option (List Char) → List Char → List Char
  | some acc, [] => if acc.isEmpty then ['#'] else []
  | none, [] => []
  | some acc, c :: rest =>
    if wordChar c then stripHashtagsAux (some (c :: acc)) rest
    else
      (if acc.isEmpty then ['#'] else []) ++
        (if c == '#' then stripHashtagsAux (some []) rest
         else c :: stripHashtagsAux none rest)
  | none, c :: rest =>
    if c == '#' then stripHashtagsAux (some []) rest
    else c :: stripHashtagsAux none rest

/-- `re.sub(r'#\w+', '', desc)`. -/
def stripHashtags (desc : String) : String :=
  String.mk (stripHashtagsAux none desc.data)

/-- Python `' '.join(['#' + t for t in tags])`. -/
def joinHashtags : List String → String
  | [] => ""
  | [t] => "#" ++ t
  | t :: rest => "#" ++ t ++ " " ++ joinHashtags rest

/-- Python `s or None` for a string `s`: `None` when empty. -/
def strOrNone (s : String) : Option String :=
  if s = "" then none else some s

/-- A `datetime` value as the normalizers produce it.  The source carries
`datetime` objects and serializes them with `.isoformat()` in responses;
since `isoformat` is injective on datetimes, the response field is
modeled by the datetime value itself. `ymd` is
`datetime.strptime(upload_date, '%Y%m%d')` (midnight of that day);
`epoch` is `datetime.fromtimestamp(create_time)`. -/
inductive PubTime where
  | ymd (y m d : Nat)
  | epoch (t : Nat)
deriving DecidableEq

/-- Gregorian leap year, as `datetime` validates dates. -/
def leapYear (y : Nat) : Bool :=
  (y % 4 == 0 && y % 100 != 0) || y % 400 == 0

/-- Days in a month, as `datetime` validates dates. -/
def daysInMonth (y m : Nat) : Nat :=
  if m == 2 then (if leapYear y then 29 else 28)
  else if m == 4 || m == 6 || m == 9 || m == 11 then 30
  else 31

/-- Digits to a natural number (the strings fed in are all-digit). -/
def digitsToNat (l : List Char) : Nat :=
  l.foldl (fun a c => a * 10 + (c.toNat - 48)) 0

/-- `datetime.strptime(upload_date_str, '%Y%m%d')`, returning `none` where
the Python call raises (wrong length, non-digits, out-of-range month or
day, year 0): `youtube.py` catches that error and leaves
`published_at = None`. -/
def parseUploadDate (s : String) : Option PubTime :=
  let cs := s.data
  if cs.length == 8 && cs.all Char.isDigit then
    let y := digitsToNat (cs.take 4)
    let m := digitsToNat ((cs.drop 4).take 2)
    let d := digitsToNat (cs.drop 6)
    if 1 ≤ y && 1 ≤ m && m ≤ 12 && 1 ≤ d && d ≤ daysInMonth y m then
      some (.ymd y m d)
    else none
  else none

/-!  ## Raw extractor payloads

Typed embeddings of the `dict` shapes each extractor produces.  A field
holding `.get(key, default)`-read data uses the default to also stand for
an absent key; a field whose dict is tested for truthiness (`if video_info:`,
`if music_info:`) is an `Option` whose `none` covers both a missing and an
empty dict. -/

/-- The `video` sub-dict of TikTok raw data. -/
structure TikTokVideoInfo where
  playAddr : Option String := none
  downloadAddr : Option String := none
  cover : Option String := none
  originCover : Option String := none
  duration : Option Nat := none
  width : Option Nat := none
  height : Option Nat := none
  ratio : Option String := none
deriving DecidableEq

/-- The `author` sub-dict of TikTok raw data (read only through
`.get(key, default)`, so the defaults stand for missing keys). -/
structure TikTokAuthorInfo where
  id : String := ""
  uniqueId : String := ""
  nickname : String := ""
  signature : String := ""
  followerCount : Option Nat := none
  verified : Bool := false
  avatarLarger : Option String := none
deriving DecidableEq

/-- The `stats` sub-dict of TikTok raw data. -/
structure TikTokStats where
  playCount : Option Nat := none
  diggCount : Option Nat := none
  commentCount : Option Nat := none
  shareCount : Option Nat := none
deriving DecidableEq

/-- The `music` sub-dict of TikTok raw data (`tiktok_api.py` only). -/
structure TikTokMusic where
  title : String := ""
  authorName : String := ""
  duration : Option Nat := none
  original : Bool := false
deriving DecidableEq

/-- A raw TikTok comment entry. -/
structure TikTokComment where
  text : String := ""
  userUniqueId : Option String := none
  diggCount : Nat := 0
  createTime : Option Nat := none
deriving DecidableEq

/-- The `video_data` dict returned by the TikTok extractors. -/
structure TikTokVideoData where
  id : String := ""
  desc : String := ""
  createTime : Option Nat := none
  video : Option TikTokVideoInfo := none
  author : TikTokAuthorInfo := {}
  stats : TikTokStats := {}
  music : Option TikTokMusic := none
deriving DecidableEq

/-- The raw payload of the TikTok extractors:
`{'video_data': ..., 'comments': [...]}`. -/
structure TikTokRaw where
  video_data : TikTokVideoData := {}
  comments : List TikTokComment := []
deriving DecidableEq

/-- One entry of yt-dlp's `thumbnails` list. -/
structure YouTubeThumb where
  url : Option String := none
deriving DecidableEq

/-- The raw yt-dlp info dict, restricted to the keys
`YouTubeIngestor.normalize_metadata` reads. -/
structure YouTubeRaw where
  id : Option String := none
  title : Option String := none
  uploader : Option String := none
  channel : Option String := none
  channel_id : Option String := none
  description : Option String := none
  upload_date : Option String := none
  thumbnails : List YouTubeThumb := []
  duration : Option Nat := none
  view_count : Option Nat := none
  like_count : Option Nat := none
  tags : List String := []
deriving DecidableEq

/-- The raw dict built by `SocialMediaIngestor.extract_metadata`,
restricted to the keys `normalize_metadata` reads. -/
structure SocialRaw where
  title : Option String := none
  author : Option String := none
  description : Option String := none
  thumbnail_url : Option String := none
  published_at : Option PubTime := none
  content_id : Option String := none
  content_type : Option String := none
  username : Option String := none
  domain : Option String := none
  scraping_available : Bool := false
deriving DecidableEq

/-- A raw extraction payload, tagged by the dict shape the producing
extractor emits.  A normalizer applied to a foreign shape behaves as on a
dict whose expected keys are all absent (which is what the Python dict
lookups yield for the keys the TikTok/YouTube normalizers read). -/
inductive RawData where
  | youtube (r : YouTubeRaw)
  | tiktok (r : TikTokRaw)
  | social (r : SocialRaw)
deriving DecidableEq

/-!  ## Normalized records

`platform_specific` in the TikTok dicts also embeds an `ai_data` sub-dict
of values derived from fields already present (clean caption, hashtag
list, a comments sample, float engagement rate, author metadata).  It is
never read downstream — `_create_new_bookmark` discards
`platform_specific` for every non-YouTube platform — and its engagement
rate is floating point, so it is elided from the embedding. -/

/-- The `platform_specific` member of a normalized record. -/
inductive PlatformSpecific where
  | youtube (video_id : String) (channel_id : Option String)
      (duration_seconds view_count like_count : Option Nat) (tags : List String)
  | tiktok (video_id : String) (author_id author_name : Option String)
      (author_follower_count : Option Nat) (author_verified : Bool)
      (duration_seconds view_count like_count comment_count share_count : Option Nat)
      (hashtags : List String) (video_url : Option String)
      (video_width video_height : Option Nat) (video_ratio : Option String)
      (music_title music_author : Option String)
  | social (content_id content_type username domain : Option String)
      (scraping_available : Bool)
deriving DecidableEq

/-- The canonical record every `normalize_metadata` returns. -/
structure Normalized where
  title : Option String
  author : Option String
  thumbnail_url : Option String
  description : Option String
  published_at : Option PubTime
  platform_specific : PlatformSpecific
deriving DecidableEq

instance exceptDecEq {ε α : Type} [DecidableEq ε] [DecidableEq α] :
    DecidableEq (Except ε α) := fun x y =>
  match x, y with
  | .ok a, .ok b => decidable_of_iff (a = b) (by simp)
  | .error a, .error b => decidable_of_iff (a = b) (by simp)
  | .ok _, .error _ => isFalse (fun hc => Except.noConfusion hc)
  | .error _, .ok _ => isFalse (fun hc => Except.noConfusion hc)

/-- The `video_id` of a `platform_specific` dict, where present. -/
def PlatformSpecific.videoId : PlatformSpecific → Option String
  | .youtube vid _ _ _ _ _ => some vid
  | .tiktok vid _ _ _ _ _ _ _ _ _ _ _ _ _ _ _ _ => some vid
  | .social _ _ _ _ _ => none

/-!  ## Normalizers -/

/-- `YouTubeIngestor.normalize_metadata` (`api/ingestors/youtube.py`,
lines 111–169) on a youtube-shaped raw dict.  The one failure, reached
after the record is assembled, is the empty/absent video id; the outer
`except` re-wraps its message. -/
def youtubeNormalize (raw : YouTubeRaw) : Except String Normalized :=
  let published_at : Option PubTime :=
    match raw.upload_date with
    | some s => parseUploadDate s
    | none => none
  let thumbFromList : Option String :=
    if raw.thumbnails ≠ [] then raw.thumbnails.getLast? >>= (·.url) else none
  let video_id := pyStrip (raw.id.getD "")
  let thumbnail_url : Option String :=
    if !truthyStr thumbFromList && video_id ≠ "" then
      some ("https://img.youtube.com/vi/" ++ video_id ++ "/hqdefault.jpg")
    else thumbFromList
  let description : Option String :=
    let d := raw.description.getD ""
    if d ≠ "" then
      let t := pyStrip d
      some (if t.data.length > 2000 then pyTake t 2000 ++ "..." else t)
    else none
  let tags := (raw.tags.take 15).map (fun t => pyTake t 50)
  let title := strOrNone (pyTake (pyStrip (raw.title.getD "")) 500)
  let author :=
    pyOrStr (strOrNone (pyTake (pyStrip (raw.uploader.getD "")) 255))
      (strOrNone (pyTake (pyStrip (raw.channel.getD "")) 255))
  let normalized : Normalized :=
    { title := title
      author := author
      thumbnail_url := thumbnail_url
      description := description
      published_at := published_at
      platform_specific := .youtube video_id
        (strOrNone (pyStrip (raw.channel_id.getD "")))
        raw.duration raw.view_count raw.like_count tags }
  if video_id = "" then
    .error "Failed to normalize metadata: No video ID found in metadata"
  else
    .ok normalized

/-- Shared body of `TikTokApiIngestor.normalize_metadata`
(`api/ingestors/tiktok_api.py`, lines 133–239) and
`TikTokIngestor.normalize_metadata` (`api/ingestors/tiktok.py`, lines
211–308): the two differ only in that the API variant also emits the
`music_title`/`music_author` keys (`includeMusic`).  The one failure,
reached after the record is assembled, is the empty/absent video id. -/
def tiktokNormalizeCore (includeMusic : Bool) (raw : TikTokRaw) :
    Except String Normalized :=
  let vd := raw.video_data
  let vi := vd.video.getD {}
  let desc := vd.desc
  let hashtags := findHashtags desc
  let clean_desc := pyStrip (stripHashtags desc)
  let title : Option String :=
    if clean_desc ≠ "" then some (pyTake clean_desc 500)
    else if hashtags ≠ [] then some (joinHashtags (hashtags.take 5))
    else none
  let video_url : Option String :=
    match vd.video with
    | some v => pyOrStr v.playAddr v.downloadAddr
    | none => none
  let thumbnail_url : Option String :=
    match vd.video with
    | some v => pyOrStr v.cover v.originCover
    | none => none
  let published_at : Option PubTime :=
    match vd.createTime with
    | some t => if t ≠ 0 then some (.epoch t) else none
    | none => none
  let video_id := pyStrip vd.id
  let normalized : Normalized :=
    { title := title
      author := strOrNone (pyTake (pyStrip vd.author.uniqueId) 255)
      thumbnail_url := thumbnail_url
      description := if desc ≠ "" then some (pyTake desc 2000) else none
      published_at := published_at
      platform_specific := .tiktok video_id
        (strOrNone (pyStrip vd.author.id))
        (strOrNone (pyStrip vd.author.nickname))
        vd.author.followerCount vd.author.verified
        vi.duration vd.stats.playCount vd.stats.diggCount
        vd.stats.commentCount vd.stats.shareCount
        hashtags video_url vi.width vi.height vi.ratio
        (if includeMusic then vd.music.map (·.title) else none)
        (if includeMusic then vd.music.map (·.authorName) else none) }
  if video_id = "" then
    .error "Failed to normalize metadata: No video ID found in metadata"
  else
    .ok normalized

/-- `SocialMediaIngestor.normalize_metadata` (`api/ingestors/social.py`,
lines 63–77): a total transformation — every code path returns a record,
whether or not a content id is present. -/
def socialNormalize (platform : String) (raw : SocialRaw) :
    Except String Normalized :=
  .ok
    { title := pyOrStr raw.title (some (pyTitleWord platform ++ " Link"))
      author := raw.author
      description := raw.description
      thumbnail_url := raw.thumbnail_url
      published_at := raw.published_at
      platform_specific := .social raw.content_id raw.content_type
        raw.username raw.domain raw.scraping_available }

/-- `YouTubeIngestor.normalize_metadata` on a tagged payload: a
foreign-shaped dict has none of the youtube keys, so it behaves as the
empty dict (and fails on the absent video id). -/
def youtubeNormalizeMeta : RawData → Except String Normalized
  | .youtube r => youtubeNormalize r
  | _ => youtubeNormalize {}

/-- `TikTokApiIngestor.normalize_metadata` on a tagged payload. -/
def tiktokApiNormalizeMeta : RawData → Except String Normalized
  | .tiktok r => tiktokNormalizeCore true r
  | _ => tiktokNormalizeCore true {}

/-- `TikTokIngestor.normalize_metadata` (Playwright variant,
`api/ingestors/tiktok.py`) on a tagged payload. -/
def tiktokWebNormalizeMeta : RawData → Except String Normalized
  | .tiktok r => tiktokNormalizeCore false r
  | _ => tiktokNormalizeCore false {}

/-- `SocialMediaIngestor.normalize_metadata` on a tagged payload. -/
def socialNormalizeMeta (platform : String) : RawData → Except String Normalized
  | .social r => socialNormalize platform r
  | _ => socialNormalize platform {}

/-!  ## Ingestors and the registry (`api/ingestors/registry_backup.py`)

`extract_metadata` performs network/browser I/O, so its outcome is
supplied by an oracle (`Oracle` below), keyed by the ingestor's class
name — the registry logs `type(ingestor).__name__`, which is also unique
across `INGESTORS`.  An `.error msg` entry is the message of the
`ValueError` every extractor raises on failure (each one catches foreign
exceptions and re-raises `ValueError`). -/

/-- An ingestor's static capability bundle: `platform`, `can_handle` and
`normalize_metadata` are pure and embedded directly; `extract_metadata`
is resolved through an oracle by `name`. -/
structure Ingestor where
  name : String
  platform : String
  can_handle : String → Bool
  normalize_metadata : RawData → Except String Normalized

/-- The outcome of each ingestor's `extract_metadata` call: ingestor class
name and URL to raw payload or raised error message. -/
def Oracle : Type := String → String → Except String RawData

/-- `YouTubeIngestor.can_handle` (`api/ingestors/youtube.py`, lines
17–29). -/
def youtube_can_handle (url : String) : Bool :=
  validate_url url &&
    (let n := (urlSchemeNetloc (pyLower url)).2
     pyContains n "youtube.com" || pyContains n "youtu.be" ||
       pyContains n "m.youtube.com")

/-- `can_handle` shared verbatim by `TikTokApiIngestor`
(`api/ingestors/tiktok_api.py`, lines 38–50) and `TikTokIngestor`
(`api/ingestors/tiktok.py`, lines 48–60). -/
def tiktok_can_handle (url : String) : Bool :=
  validate_url url &&
    (let n := (urlSchemeNetloc (pyLower url)).2
     pyContains n "tiktok.com" || pyContains n "vm.tiktok.com" ||
       pyContains n "t.tiktok.com")

/-- `SocialMediaIngestor.can_handle` (`api/ingestors/social.py`, lines
20–22): any domain pattern occurring in the lowercased URL. -/
def social_can_handle (patterns : List String) (url : String) : Bool :=
  patterns.any (fun p => pyContains (pyLower url) p)

/-- `SocialMediaIngestor(platform, domain_patterns)` subclass instances
(`api/ingestors/social.py`, lines 210–247). -/
def mkSocialIngestor (nm platform : String) (patterns : List String) : Ingestor :=
  { name := nm
    platform := platform
    can_handle := social_can_handle patterns
    normalize_metadata := socialNormalizeMeta platform }

/-- `YouTubeIngestor()`. -/
def youtubeIngestor : Ingestor :=
  { name := "YouTubeIngestor"
    platform := "youtube"
    can_handle := youtube_can_handle
    normalize_metadata := youtubeNormalizeMeta }

/-- `TikTokApiIngestor()` (`api/ingestors/tiktok_api.py`). -/
def tikTokApiIngestor : Ingestor :=
  { name := "TikTokApiIngestor"
    platform := "tiktok"
    can_handle := tiktok_can_handle
    normalize_metadata := tiktokApiNormalizeMeta }

/-- `TikTokIngestor()` (Playwright variant, `api/ingestors/tiktok.py`). -/
def tikTokIngestor : Ingestor :=
  { name := "TikTokIngestor"
    platform := "tiktok"
    can_handle := tiktok_can_handle
    normalize_metadata := tiktokWebNormalizeMeta }

/-- `InstagramIngestor()`. -/
def instagramIngestor : Ingestor :=
  mkSocialIngestor "InstagramIngestor" "instagram" ["instagram.com"]

/-- `TwitterIngestor()`. -/
def twitterIngestor : Ingestor :=
  mkSocialIngestor "TwitterIngestor" "twitter" ["twitter.com", "x.com"]

/-- `LinkedInIngestor()`. -/
def linkedInIngestor : Ingestor :=
  mkSocialIngestor "LinkedInIngestor" "linkedin" ["linkedin.com"]

/-- `RedditIngestor()`. -/
def redditIngestor : Ingestor :=
  mkSocialIngestor "RedditIngestor" "reddit" ["reddit.com"]

/-- `PinterestIngestor()`. -/
def pinterestIngestor : Ingestor :=
  mkSocialIngestor "PinterestIngestor" "pinterest" ["pinterest.com", "pin.it"]

/-- `SnapchatIngestor()`. -/
def snapchatIngestor : Ingestor :=
  mkSocialIngestor "SnapchatIngestor" "snapchat" ["snapchat.com"]

/-- `FacebookIngestor()`. -/
def facebookIngestor : Ingestor :=
  mkSocialIngestor "FacebookIngestor" "facebook" ["facebook.com", "fb.com"]

/-- `INGESTORS` (`registry_backup.py`, lines 25–36), in source order. -/
def INGESTORS : List Ingestor :=
  [youtubeIngestor, tikTokApiIngestor, tikTokIngestor, instagramIngestor,
   twitterIngestor, linkedInIngestor, redditIngestor, pinterestIngestor,
   snapchatIngestor, facebookIngestor]

/-- `get_ingestor` (`registry_backup.py`, lines 38–42): first ingestor
whose `can_handle` accepts the URL. -/
def get_ingestor (url : String) : Option Ingestor :=
  INGESTORS.find? (fun i => i.can_handle url)

/-- `get_tiktok_ingestors` (`registry_backup.py`, lines 44–49): every
ingestor with platform `"tiktok"` accepting the URL, in registry order. -/
def get_tiktok_ingestors (url : String) : List Ingestor :=
  INGESTORS.filter (fun i => i.platform == "tiktok" && i.can_handle url)

/-- `_detect_platform` (`registry_backup.py`, lines 230–251): the URL
classifier used by the basic-bookmark path. -/
def detect_platform (url : String) : String :=
  let u := pyLower url
  if pyContains u "youtube.com" || pyContains u "youtu.be" then "youtube"
  else if pyContains u "tiktok.com" then "tiktok"
  else if pyContains u "instagram.com" then "instagram"
  else if pyContains u "twitter.com" || pyContains u "x.com" then "twitter"
  else if pyContains u "linkedin.com" then "linkedin"
  else if pyContains u "reddit.com" then "reddit"
  else if pyContains u "pinterest.com" || pyContains u "pin.it" then "pinterest"
  else if pyContains u "snapchat.com" then "snapchat"
  else if pyContains u "facebook.com" || pyContains u "fb.com" then "facebook"
  else "other"

/-!  ## Data model (`api/models.py`)

The store is embedded as in-memory tables.  `api/models.py` declares on
`bookmarks`: `url = Column(Text, nullable=False, unique=True)` — a single
**table-wide** unique constraint on `url` (line 34; there is no composite
`(user_id, url)` constraint) — plus the `check_platform_values` CHECK
constraint; and on `youtube_details`: `video_id` unique.  Inserts are
checked against exactly these constraints; a violation is the
`IntegrityError` the orchestrator catches, whose driver message contains
`"unique constraint"` for unique-index violations and not for CHECK
violations. -/

/-- `Bookmark.raw`: the serialized extraction payload. `empty` is the
literal `'{}'` default; `data` is `json.dumps(raw_data)` of a payload
(serialization embedded by the payload itself — `json.dumps` is injective
on these dicts). -/
inductive RawPayload where
  | empty
  | data (r : RawData)
deriving DecidableEq

/-- A `bookmarks` table row (`api/models.py`, lines 25–57).
`created_at`/`updated_at` come from the database clock; `created_at` is
carried as its rendered form since responses only pass it through
`isoformat()`. -/
structure BookmarkRow where
  id : Nat
  platform : String
  url : String
  title : Option String := none
  author : Option String := none
  thumbnail_url : Option String := none
  description : Option String := none
  note : Option String := none
  published_at : Option PubTime := none
  created_at : String
  raw : RawPayload
  user_id : Nat
deriving DecidableEq

/-- A `youtube_details` table row (`api/models.py`, lines 59–75).
`tags` and `extra` are stored as `json.dumps` text; they are carried as
the serialized values themselves. -/
structure YouTubeDetailsRow where
  bookmark_id : Nat
  video_id : String
  channel_id : Option String := none
  duration_seconds : Option Nat := none
  view_count : Option Nat := none
  like_count : Option Nat := none
  tags : List String := []
  extra : List (String × String) := []
deriving DecidableEq

/-- The database: both tables in insertion order, the next autoincrement
id, and the clock value `func.now()` stamps on inserts. -/
structure DB where
  bookmarks : List BookmarkRow := []
  youtube_details : List YouTubeDetailsRow := []
  nextId : Nat := 1
  now : String := ""
deriving DecidableEq

/-- `check_platform_values` (`api/models.py`, lines 46–50). -/
def validPlatform (p : String) : Bool :=
  ["youtube", "tiktok", "instagram", "twitter", "linkedin", "reddit",
   "pinterest", "snapchat", "facebook", "other"].contains p

/-!  ## Orchestrator (`registry_backup.py`) -/

/-- A raised Python exception, by class: the orchestrator raises
`ValueError` for domain failures and `RuntimeError` for wrapped
unexpected ones; `otherError` covers any other class (e.g. `KeyError`)
before the orchestrator rewraps it. -/
inductive PyError where
  | valueError (msg : String)
  | runtimeError (msg : String)
  | otherError (msg : String)
deriving DecidableEq

/-- The duplicate-bookmark message raised by the pre-emptive existence
check and by both `IntegrityError` unique-constraint handlers. -/
def dupMsg : String :=
  "You already have this link bookmarked! Check your existing bookmarks to find it."

/-- The `RuntimeError("Database error: ...")` raised when an
`IntegrityError` message lacks `"unique constraint"` (only the CHECK
constraint could produce this here; the driver text is abstracted). -/
def checkViolationMsg : String :=
  "Database error: check constraint violated"

/-- `bookmark.youtube_details` relationship rows, in insertion order. -/
def ytDetailsFor (db : DB) (bookmarkId : Nat) : Option YouTubeDetailsRow :=
  db.youtube_details.find? (fun d => d.bookmark_id == bookmarkId)

/-- The `meta` object of a response: `none` is the empty dict `{}`. -/
structure YtMeta where
  video_id : String
  channel_id : Option String := none
  duration_seconds : Option Nat := none
  view_count : Option Nat := none
  like_count : Option Nat := none
  tags : List String := []
deriving DecidableEq

/-- The response envelope every ingestion path returns
(`_format_bookmark_response`): `{id, platform, url, title, author,
thumbnail_url, note, published_at, created_at, meta}`. -/
structure BookmarkResponse where
  id : Nat
  platform : String
  url : String
  title : Option String := none
  author : Option String := none
  thumbnail_url : Option String := none
  note : Option String := none
  published_at : Option PubTime := none
  created_at : String
  meta : Option YtMeta := none
deriving DecidableEq

/-- `_format_bookmark_response` (`registry_backup.py`, lines 203–228):
the fixed envelope with `meta = {}` unless the bookmark is a YouTube one
with a details row. -/
def format_bookmark_response (db : DB) (b : BookmarkRow) : BookmarkResponse :=
  { id := b.id
    platform := b.platform
    url := b.url
    title := b.title
    author := b.author
    thumbnail_url := b.thumbnail_url
    note := b.note
    published_at := b.published_at
    created_at := b.created_at
    meta :=
      if b.platform == "youtube" then
        match ytDetailsFor db b.id with
        | some yt => some
            { video_id := yt.video_id
              channel_id := yt.channel_id
              duration_seconds := yt.duration_seconds
              view_count := yt.view_count
              like_count := yt.like_count
              tags := yt.tags }
        | none => none
      else none }

/-- `find_existing`: the `db.query(Bookmark).filter(Bookmark.url == url,
Bookmark.user_id == user_id).first()` lookup (`registry_backup.py`,
line 78). -/
def find_existing (db : DB) (url : String) (user_id : Nat) : Option BookmarkRow :=
  db.bookmarks.find? (fun b => b.url == url && b.user_id == user_id)

/-- `_create_basic_bookmark` (`registry_backup.py`, lines 96–117):
insert a row with only `platform`, `url`, `user_id` and `raw='{}'`; a
unique-constraint `IntegrityError` rolls back and becomes the duplicate
`ValueError`. -/
def create_basic_bookmark (url : String) (user_id : Nat) (db : DB) :
    DB × Except PyError BookmarkResponse :=
  let platform := detect_platform url
  let bookmark : BookmarkRow :=
    { id := db.nextId, platform := platform, url := url,
      created_at := db.now, raw := .empty, user_id := user_id }
  if db.bookmarks.any (fun b => b.url == url) then
    (db, .error (.valueError dupMsg))
  else if !validPlatform platform then
    (db, .error (.runtimeError checkViolationMsg))
  else
    let db2 : DB :=
      { db with
        bookmarks := db.bookmarks ++ [bookmark]
        nextId := db.nextId + 1 }
    (db2, .ok (format_bookmark_response db2 bookmark))

/-- `_create_youtube_details` (`registry_backup.py`, lines 182–193):
build the details row from `platform_specific`.  `platform_data["video_id"]`
is a checked subscript: a social-shaped dict lacks the key, raising
`KeyError('video_id')` (a tiktok-shaped dict has `video_id`,
`duration_seconds`, `view_count`, `like_count`, and `.get` misses for the
rest).  Both foreign shapes are unreachable for the real registry. -/
def create_youtube_details_row (bookmarkId : Nat) :
    PlatformSpecific → Except PyError YouTubeDetailsRow
  | .youtube vid cid dur vc lc tags =>
    .ok { bookmark_id := bookmarkId, video_id := vid, channel_id := cid,
          duration_seconds := dur, view_count := vc, like_count := lc,
          tags := tags, extra := [] }
  | .tiktok vid _ _ _ _ dur vc lc _ _ _ _ _ _ _ _ _ =>
    .ok { bookmark_id := bookmarkId, video_id := vid, channel_id := none,
          duration_seconds := dur, view_count := vc, like_count := lc,
          tags := [], extra := [] }
  | .social _ _ _ _ _ =>
    .error (.otherError "'video_id'")

/-- `_create_new_bookmark` (`registry_backup.py`, lines 119–155):
extract, normalize, insert the bookmark (`flush` checks the unique `url`
index), for YouTube also insert the details row (`commit` checks the
unique `video_id` index); any unique-constraint `IntegrityError` rolls
the whole transaction back and becomes the duplicate `ValueError`.
Extraction and normalization errors are the extractors' `ValueError`s
and leave the session untouched. -/
def create_new_bookmark (oracle : Oracle) (ing : Ingestor) (url : String)
    (user_id : Nat) (db : DB) : DB × Except PyError BookmarkResponse :=
  match oracle ing.name url with
  | .error e => (db, .error (.valueError e))
  | .ok raw =>
    match ing.normalize_metadata raw with
    | .error e => (db, .error (.valueError e))
    | .ok normalized =>
      let bookmark : BookmarkRow :=
        { id := db.nextId, platform := ing.platform, url := url,
          title := normalized.title, author := normalized.author,
          thumbnail_url := normalized.thumbnail_url,
          description := normalized.description,
          published_at := normalized.published_at,
          created_at := db.now, raw := .data raw, user_id := user_id }
      if db.bookmarks.any (fun b => b.url == url) then
        (db, .error (.valueError dupMsg))
      else if !validPlatform ing.platform then
        (db, .error (.runtimeError checkViolationMsg))
      else if ing.platform == "youtube" then
        match create_youtube_details_row db.nextId normalized.platform_specific with
        | .error e => (db, .error e)
        | .ok details =>
          if db.youtube_details.any (fun d => d.video_id == details.video_id) then
            (db, .error (.valueError dupMsg))
          else
            let db2 : DB :=
              { db with
                bookmarks := db.bookmarks ++ [bookmark]
                youtube_details := db.youtube_details ++ [details]
                nextId := db.nextId + 1 }
            (db2, .ok (format_bookmark_response db2 bookmark))
      else
        let db2 : DB :=
          { db with
            bookmarks := db.bookmarks ++ [bookmark]
            nextId := db.nextId + 1 }
        (db2, .ok (format_bookmark_response db2 bookmark))

/-- The `for ingestor in tiktok_ingestors` loop of `add_bookmark`
(`registry_backup.py`, lines 61–68): return the first attempt that
succeeds; **any** exception from an attempt is caught and the next
member tried (each failed attempt leaves the store unchanged); when the
members run out, raise `ValueError("All TikTok ingestors failed")`. -/
def try_tiktok_chain (oracle : Oracle) (url : String) (user_id : Nat)
    (db : DB) : List Ingestor → DB × Except PyError BookmarkResponse
  | [] => (db, .error (.valueError "All TikTok ingestors failed"))
  | ing :: rest =>
    match create_new_bookmark oracle ing url user_id db with
    | (db2, .ok resp) => (db2, .ok resp)
    | (_, .error _) => try_tiktok_chain oracle url user_id db rest

/-- The `except` clauses of `add_bookmark` (`registry_backup.py`, lines
86–91): a `ValueError` is re-raised as-is; anything else is re-raised as
`RuntimeError(f"Failed to add bookmark: {str(e)}")`. -/
def pyWrapErrors :
    Except PyError BookmarkResponse → Except PyError BookmarkResponse
  | .ok r => .ok r
  | .error (.valueError m) => .error (.valueError m)
  | .error (.runtimeError m) => .error (.runtimeError ("Failed to add bookmark: " ++ m))
  | .error (.otherError m) => .error (.runtimeError ("Failed to add bookmark: " ++ m))

/-- `add_bookmark` (`registry_backup.py`, lines 51–94).  A URL containing
`"tiktok.com"` with a non-empty matching chain goes through the chain
loop (no pre-emptive existence check).  Otherwise: no matching ingestor →
basic bookmark (no pre-emptive check); a matching ingestor → the
`(user_id, url)` existence check, then `_create_new_bookmark`. -/
def add_bookmark (oracle : Oracle) (url : String) (user_id : Nat) (db : DB) :
    DB × Except PyError BookmarkResponse :=
  let core :=
    if pyContains (pyLower url) "tiktok.com" && !(get_tiktok_ingestors url).isEmpty then
      try_tiktok_chain oracle url user_id db (get_tiktok_ingestors url)
    else
      match get_ingestor url with
      | none => create_basic_bookmark url user_id db
      | some ing =>
        match find_existing db url user_id with
        | some _ => (db, .error (.valueError dupMsg))
        | none => create_new_bookmark oracle ing url user_id db
  (core.1, pyWrapErrors core.2)

/-!  ## HTTP boundary (`api/main.py`) -/

/-- The `except` clauses of `create_bookmark` / `create_youtube_bookmark`
(`api/main.py`, lines 162–171 and 196–204): a `ValueError` whose message
contains both `"already"` and `"bookmarked"` (lowercased) becomes HTTP
409, any other `ValueError` 422, and any other exception 500. -/
def http_status_of : PyError → Nat
  | .valueError msg =>
    if pyContains (pyLower msg) "already" && pyContains (pyLower msg) "bookmarked"
    then 409 else 422
  | .runtimeError _ => 500
  | .otherError _ => 500

/-- The HTTP status the boundary returns for an `add_bookmark` outcome:
FastAPI's 200 on a returned envelope, else the mapped error status. -/
def response_status : Except PyError BookmarkResponse → Nat
  | .ok _ => 200
  | .error e => http_status_of e

/-- One row of the `list_bookmarks` response (`api/main.py`, lines
236–259): the same envelope as `_format_bookmark_response`. -/
def list_bookmark_row (db : DB) (b : BookmarkRow) : BookmarkResponse :=
  { id := b.id
    platform := b.platform
    url := b.url
    title := b.title
    author := b.author
    thumbnail_url := b.thumbnail_url
    note := b.note
    published_at := b.published_at
    created_at := b.created_at
    meta :=
      if b.platform == "youtube" then
        match ytDetailsFor db b.id with
        | some yt => some
            { video_id := yt.video_id
              channel_id := yt.channel_id
              duration_seconds := yt.duration_seconds
              view_count := yt.view_count
              like_count := yt.like_count
              tags := yt.tags }
        | none => none
      else none }

/-- `list_bookmarks` (`api/main.py`, lines 206–263) restricted to its
response shaping: all of the caller's rows, each rendered by
`list_bookmark_row`.  The platform/search filters, `created_at` ordering
and offset/limit select a subsequence of these rows, so any
per-row property proved over this list covers the endpoint's output. -/
def list_bookmarks_rows (db : DB) (user_id : Nat) : List BookmarkResponse :=
  (db.bookmarks.filter (fun b => b.user_id == user_id)).map (list_bookmark_row db)

/-!  ## The TikTok-API ingestor's process state (`api/ingestors/tiktok_api.py`)

`TikTokApiIngestor` carries process-lifetime mutable state: the
module-level `_metadata_cache` (line 14) and the instance flags
`_initialized` / `_api_available` (lines 18–21).  Its `extract_metadata`
(lines 81–131) is embedded as an explicit state transformer.  The two
I/O steps are oracles: `init` is the `TikTokApi()` construction in
`_ensure_initialized` and `fetch` is the session-creation plus
`api.video(url).info()` block, yielding either the raw payload or the
message of the `ValueError` raised inside the `try` (timeouts, missing
data, unexpected shapes). -/

/-- `_metadata_cache` plus the instance flags. -/
structure TikTokApiProcState where
  cache : List (String × TikTokRaw) := []
  initialized : Bool := false
  apiAvailable : Bool := true
deriving DecidableEq

/-- `_get_cache_key` (lines 78–79): `md5(url).hexdigest()`.  The digest
is embedded as the URL itself — md5 is injective on the URLs in play, and
only equality of keys is ever used. -/
def cacheKey (url : String) : String := url

/-- Dict lookup in the cache; assignment conses, so the most recent
binding wins, exactly like `dict` overwriting. -/
def lookupCache (c : List (String × TikTokRaw)) (k : String) : Option TikTokRaw :=
  (c.find? (fun p => p.1 == k)).map (·.2)

/-- `TikTokApiIngestor.extract_metadata` (lines 81–131) with
`_ensure_initialized` (lines 23–32) inlined at its call site:
1. a cache hit returns the cached raw result at once;
2. otherwise an unavailable API raises the fast fallback `ValueError`;
3. otherwise initialization runs if needed — on failure the flag drops
   and its `ValueError` propagates;
4. otherwise the remote fetch runs — success is cached and returned, and
   any failure drops `_api_available` and raises the wrapped
   `ValueError`. -/
def tiktok_api_extract_metadata (init : Except String Unit)
    (fetch : String → Except String TikTokRaw)
    (s : TikTokApiProcState) (url : String) :
    TikTokApiProcState × Except String TikTokRaw :=
  match lookupCache s.cache (cacheKey url) with
  | some r => (s, .ok r)
  | none =>
    if !s.apiAvailable then
      (s, .error "TikTokApi is not available, falling back to Playwright ingestor")
    else
      match (if s.initialized then .ok () else init : Except String Unit) with
      | .error e =>
        ({ s with apiAvailable := false },
         .error ("TikTokApi initialization failed: " ++ e))
      | .ok _ =>
        let s1 := { s with initialized := true }
        match fetch url with
        | .ok raw =>
          ({ s1 with cache := (cacheKey url, raw) :: s1.cache }, .ok raw)
        | .error e =>
          ({ s1 with apiAvailable := false },
           .error ("TikTokApi metadata extraction failed: " ++ e))

/-!  ## Concrete fixtures for witnesses and counterexamples -/

/-- A standard TikTok video URL (accepted by both TikTok ingestors). -/
def urlTT : String := "https://www.tiktok.com/@alice/video/7123456789012345678"

/-- A second TikTok video URL. -/
def urlTT2 : String := "https://www.tiktok.com/@bob/video/7000000000000000001"

/-- A YouTube watch URL (accepted by the YouTube ingestor). -/
def urlYT : String := "https://www.youtube.com/watch?v=dQw4w9WgXcQ"

/-- A schemeless YouTube URL: `validate_url` rejects it, so no ingestor
matches, but `_detect_platform` still classifies it as `"youtube"`. -/
def urlYTBare : String := "youtube.com/watch?v=dQw4w9WgXcQ"

/-- An arbitrary blog URL matched by no ingestor and no classifier
pattern. -/
def urlBlog : String := "https://example.org/articles/42"

/-- A TikTok raw payload with a video id present. -/
def rawTT : TikTokRaw :=
  { video_data :=
      { id := "7123456789012345678"
        desc := "hello world"
        author := { uniqueId := "alice" } } }

/-- A YouTube raw payload with a video id present. -/
def rawYT : YouTubeRaw :=
  { id := some "dQw4w9WgXcQ"
    title := some "Never Gonna Give You Up"
    uploader := some "Rick Astley" }

/-- An oracle for paths that never reach extraction. -/
def oracleUnused : Oracle := fun _ _ => .error "unused"

/-- An oracle on which every extractor fails. -/
def oracleBothFail : Oracle := fun _ _ => .error "upstream timeout"

/-- An oracle on which the TikTok-API extractor succeeds and every other
extractor fails. -/
def oracleApiOk : Oracle := fun nm _ =>
  if nm == "TikTokApiIngestor" then .ok (.tiktok rawTT)
  else .error "playwright crashed"

/-- An oracle on which the TikTok-API extractor fails and the Playwright
TikTok extractor succeeds. -/
def oracleWebOk : Oracle := fun nm _ =>
  if nm == "TikTokIngestor" then .ok (.tiktok rawTT)
  else .error "TikTokApi session creation timed out - falling back to Playwright"

/-- An oracle on which the YouTube extractor succeeds. -/
def oracleYtOk : Oracle := fun nm _ =>
  if nm == "YouTubeIngestor" then .ok (.youtube rawYT)
  else .error "unused"

/-- A store already holding `urlTT` for user 1. -/
def dbTT : DB :=
  { bookmarks :=
      [{ id := 1, platform := "tiktok", url := urlTT,
         created_at := "2026-01-01T00:00:00", raw := .empty, user_id := 1 }]
    nextId := 2
    now := "2026-01-02T00:00:00" }

/-- A store already holding `urlYT` for user 1. -/
def dbYT : DB :=
  { bookmarks :=
      [{ id := 1, platform := "youtube", url := urlYT,
         created_at := "2026-01-01T00:00:00", raw := .empty, user_id := 1 }]
    nextId := 2
    now := "2026-01-02T00:00:00" }

/-- The store after user 1 saves the blog URL into an empty store. -/
def dbBlog1 : DB := (add_bookmark oracleUnused urlBlog 1 {}).1

/-- A remote-fetch oracle succeeding exactly on `urlTT`. -/
def ttFetch1 : String → Except String TikTokRaw := fun u =>
  if u == urlTT then .ok rawTT else .error "upstream timeout"

/-- A remote-fetch oracle that always fails. -/
def ttFetchDead : String → Except String TikTokRaw := fun _ =>
  .error "remote dead"

/-- Process state after one successful extraction of `urlTT` from a fresh
state. -/
def ttS1 : TikTokApiProcState :=
  (tiktok_api_extract_metadata (.ok ()) ttFetch1 {} urlTT).1

/-- Process state after the extraction of `urlTT2` then fails on `ttS1`
(marking the API unavailable). -/
def ttS2 : TikTokApiProcState :=
  (tiktok_api_extract_metadata (.ok ()) ttFetch1 ttS1 urlTT2).1

/-- A process state with a cached entry but the API marked unavailable. -/
def ttStateCached : TikTokApiProcState :=
  { cache := [(cacheKey urlTT, rawTT)], initialized := true,
    apiAvailable := false }

/-!  ## General lemmas about the orchestrator -/

theorem pyWrapErrors_error (e : PyError) :
    ∃ m, pyWrapErrors (.error e) = .error m := by
  cases e <;> exact ⟨_, rfl⟩

theorem create_new_bookmark_url_conflict (oracle : Oracle) (ing : Ingestor)
    (url : String) (uid : Nat) (db : DB)
    (h : db.bookmarks.any (fun b => b.url == url) = true) :
    ∃ e, create_new_bookmark oracle ing url uid db = (db, .error e) := by
  rcases ho : oracle ing.name url with e | raw
  · exact ⟨.valueError e, by simp [create_new_bookmark, ho]⟩
  · rcases hn : ing.normalize_metadata raw with e | n
    · exact ⟨.valueError e, by simp [create_new_bookmark, ho, hn]⟩
    · exact ⟨.valueError dupMsg, by simp [create_new_bookmark, ho, hn, h]⟩

theorem try_chain_all_conflict (oracle : Oracle) (url : String) (uid : Nat)
    (db : DB) (h : db.bookmarks.any (fun b => b.url == url) = true) :
    ∀ chain, try_tiktok_chain oracle url uid db chain
      = (db, .error (.valueError "All TikTok ingestors failed")) := by
  intro chain
  induction chain with
  | nil => rfl
  | cons ing rest ih =>
    obtain ⟨e, he⟩ := create_new_bookmark_url_conflict oracle ing url uid db h
    simp [try_tiktok_chain, he, ih]

theorem create_basic_url_conflict (url : String) (uid : Nat) (db : DB)
    (h : db.bookmarks.any (fun b => b.url == url) = true) :
    create_basic_bookmark url uid db = (db, .error (.valueError dupMsg)) := by
  simp [create_basic_bookmark, h]

theorem find_existing_mem_url (db : DB) (url : String) (uid : Nat) (b : BookmarkRow)
    (h : find_existing db url uid = some b) :
    db.bookmarks.any (fun x => x.url == url) = true := by
  have hm := List.find?_some h
  have hb := List.mem_of_find?_eq_some h
  simp only [Bool.and_eq_true, beq_iff_eq] at hm
  simp only [List.any_eq_true]
  exact ⟨b, hb, by simp [hm.1]⟩

theorem add_bookmark_url_conflict (oracle : Oracle) (url : String) (uid : Nat)
    (db : DB) (h : db.bookmarks.any (fun b => b.url == url) = true) :
    (add_bookmark oracle url uid db).1 = db ∧
    ∃ m, (add_bookmark oracle url uid db).2 = .error m := by
  by_cases ht : (pyContains (pyLower url) "tiktok.com" &&
      !(get_tiktok_ingestors url).isEmpty) = true
  · have hc := try_chain_all_conflict oracle url uid db h (get_tiktok_ingestors url)
    refine ⟨?_, .valueError "All TikTok ingestors failed", ?_⟩ <;>
      simp [add_bookmark, ht, hc, pyWrapErrors]
  · cases hg : get_ingestor url with
    | none =>
      have hb := create_basic_url_conflict url uid db h
      refine ⟨?_, .valueError dupMsg, ?_⟩ <;>
        simp [add_bookmark, ht, hg, hb, pyWrapErrors]
    | some ing =>
      cases hf : find_existing db url uid with
      | some b =>
        refine ⟨?_, .valueError dupMsg, ?_⟩ <;>
          simp [add_bookmark, ht, hg, hf, pyWrapErrors]
      | none =>
        obtain ⟨e, he⟩ := create_new_bookmark_url_conflict oracle ing url uid db h
        obtain ⟨m, hm⟩ := pyWrapErrors_error e
        refine ⟨?_, m, ?_⟩ <;> simp [add_bookmark, ht, hg, hf, he, hm]

theorem create_basic_state (url : String) (uid : Nat) (db : DB) :
    (create_basic_bookmark url uid db).1 = db ∨
    (db.bookmarks.any (fun b => b.url == url) = false ∧
     ∃ bm : BookmarkRow, bm.url = url ∧ bm.user_id = uid ∧
       (create_basic_bookmark url uid db).1.bookmarks = db.bookmarks ++ [bm]) := by
  unfold create_basic_bookmark
  by_cases h : db.bookmarks.any (fun b => b.url == url) = true
  · simp [h]
  · have h' : db.bookmarks.any (fun b => b.url == url) = false := by
      simpa using h
    by_cases hv : validPlatform (detect_platform url) = true
    · right
      refine ⟨h', ({ id := db.nextId, platform := detect_platform url,
                     url := url, created_at := db.now, raw := .empty,
                     user_id := uid } : BookmarkRow), rfl, rfl, ?_⟩
      simp [h', hv]
    · left
      have hv' : validPlatform (detect_platform url) = false := by simpa using hv
      simp [h', hv']

theorem create_new_state (oracle : Oracle) (ing : Ingestor) (url : String)
    (uid : Nat) (db : DB) :
    (create_new_bookmark oracle ing url uid db).1 = db ∨
    (db.bookmarks.any (fun b => b.url == url) = false ∧
     ∃ bm : BookmarkRow, bm.url = url ∧ bm.user_id = uid ∧
       (create_new_bookmark oracle ing url uid db).1.bookmarks
         = db.bookmarks ++ [bm]) := by
  rcases ho : oracle ing.name url with e | raw
  · left; simp [create_new_bookmark, ho]
  · rcases hn : ing.normalize_metadata raw with e | n
    · left; simp [create_new_bookmark, ho, hn]
    · by_cases h : db.bookmarks.any (fun b => b.url == url) = true
      · left; simp [create_new_bookmark, ho, hn, h]
      · have h' : db.bookmarks.any (fun b => b.url == url) = false := by
          simpa using h
        by_cases hv : validPlatform ing.platform = true
        · by_cases hy : (ing.platform == "youtube") = true
          · rcases hd : create_youtube_details_row db.nextId n.platform_specific
              with e | details
            · left; simp [create_new_bookmark, ho, hn, h', hv, hy, hd]
            · by_cases hvid : db.youtube_details.any
                  (fun d => d.video_id == details.video_id) = true
              · left; simp [create_new_bookmark, ho, hn, h', hv, hy, hd, hvid]
              · right
                refine ⟨h', ({ id := db.nextId, platform := ing.platform,
                               url := url, title := n.title,
                               author := n.author,
                               thumbnail_url := n.thumbnail_url,
                               description := n.description, note := none,
                               published_at := n.published_at,
                               created_at := db.now, raw := .data raw,
                               user_id := uid } : BookmarkRow),
                        rfl, rfl, ?_⟩
                simp [create_new_bookmark, ho, hn, h', hv, hy, hd, hvid]
          · right
            refine ⟨h', ({ id := db.nextId, platform := ing.platform,
                           url := url, title := n.title, author := n.author,
                           thumbnail_url := n.thumbnail_url,
                           description := n.description, note := none,
                           published_at := n.published_at,
                           created_at := db.now, raw := .data raw,
                           user_id := uid } : BookmarkRow), rfl, rfl, ?_⟩
            simp [create_new_bookmark, ho, hn, h', hv, hy]
        · left
          simp at hv
          simp [create_new_bookmark, ho, hn, h', hv]

theorem try_chain_state (oracle : Oracle) (url : String) (uid : Nat) (db : DB) :
    ∀ chain, (try_tiktok_chain oracle url uid db chain).1 = db ∨
    (db.bookmarks.any (fun b => b.url == url) = false ∧
     ∃ bm : BookmarkRow, bm.url = url ∧ bm.user_id = uid ∧
       (try_tiktok_chain oracle url uid db chain).1.bookmarks
         = db.bookmarks ++ [bm]) := by
  intro chain
  induction chain with
  | nil => left; rfl
  | cons ing rest ih =>
    rcases hc : create_new_bookmark oracle ing url uid db with ⟨d, r⟩
    cases r with
    | ok resp =>
      have := create_new_state oracle ing url uid db
      rw [hc] at this
      simpa [try_tiktok_chain, hc] using this
    | error e => simpa [try_tiktok_chain, hc] using ih

theorem any_url_false_ne (db : DB) (url : String)
    (h : db.bookmarks.any (fun b => b.url == url) = false) :
    ∀ b ∈ db.bookmarks, b.url ≠ url := by
  intro b hb hurl
  have : db.bookmarks.any (fun b => b.url == url) = true :=
    List.any_eq_true.mpr ⟨b, hb, by simp [hurl]⟩
  rw [this] at h
  cases h

theorem add_bookmark_state_shape (oracle : Oracle) (url : String) (uid : Nat)
    (db : DB) :
    (add_bookmark oracle url uid db).1 = db ∨
    (db.bookmarks.any (fun b => b.url == url) = false ∧
     ∃ bm : BookmarkRow, bm.url = url ∧ bm.user_id = uid ∧
       (add_bookmark oracle url uid db).1.bookmarks = db.bookmarks ++ [bm]) := by
  unfold add_bookmark
  by_cases ht : (pyContains (pyLower url) "tiktok.com" &&
      !(get_tiktok_ingestors url).isEmpty) = true
  · rw [if_pos ht]
    exact try_chain_state oracle url uid db _
  · rw [if_neg ht]
    cases hg : get_ingestor url with
    | none => exact create_basic_state url uid db
    | some ing =>
      cases hf : find_existing db url uid with
      | some b => left; rfl
      | none => exact create_new_state oracle ing url uid db

theorem add_bookmark_pairwise_urls (oracle : Oracle) (url : String) (uid : Nat)
    (db : DB) (h : db.bookmarks.Pairwise (fun a b => a.url ≠ b.url)) :
    (add_bookmark oracle url uid db).1.bookmarks.Pairwise
      (fun a b => a.url ≠ b.url) := by
  rcases add_bookmark_state_shape oracle url uid db with hd | ⟨hany, bm, hbu, _, happ⟩
  · rw [hd]; exact h
  · rw [happ]
    refine List.pairwise_append.mpr ⟨h, List.pairwise_singleton _ _, ?_⟩
    intro a ha b hb
    simp only [List.mem_singleton] at hb
    subst hb
    rw [hbu]
    exact any_url_false_ne db url hany a ha

theorem format_meta_none (db : DB) (b : BookmarkRow)
    (h : b.platform ≠ "youtube") :
    (format_bookmark_response db b).meta = none := by
  have hb : (b.platform == "youtube") = false := by
    simp [h]
  simp [format_bookmark_response, hb]

theorem list_row_meta_none (db : DB) (b : BookmarkRow)
    (h : b.platform ≠ "youtube") :
    (list_bookmark_row db b).meta = none := by
  have hb : (b.platform == "youtube") = false := by
    simp [h]
  simp [list_bookmark_row, hb]

theorem create_new_ok_resp (oracle : Oracle) (ing : Ingestor) (url : String)
    (uid : Nat) (db : DB) (d : DB) (resp : BookmarkResponse)
    (hcr : create_new_bookmark oracle ing url uid db = (d, .ok resp)) :
    ∃ bm : BookmarkRow, bm.platform = ing.platform ∧
      resp = format_bookmark_response d bm := by
  rcases ho : oracle ing.name url with e | raw
  · simp [create_new_bookmark, ho] at hcr
  · rcases hn : ing.normalize_metadata raw with e | n
    · simp [create_new_bookmark, ho, hn] at hcr
    · by_cases h : db.bookmarks.any (fun b => b.url == url) = true
      · simp [create_new_bookmark, ho, hn, h] at hcr
      · have h' : db.bookmarks.any (fun b => b.url == url) = false := by
          simpa using h
        by_cases hv : validPlatform ing.platform = true
        · by_cases hy : (ing.platform == "youtube") = true
          · rcases hd : create_youtube_details_row db.nextId n.platform_specific
              with e | details
            · simp [create_new_bookmark, ho, hn, h', hv, hy, hd] at hcr
            · by_cases hvid : db.youtube_details.any
                  (fun x => x.video_id == details.video_id) = true
              · simp [create_new_bookmark, ho, hn, h', hv, hy, hd, hvid] at hcr
              · simp [create_new_bookmark, ho, hn, h', hv, hy, hd, hvid] at hcr
                obtain ⟨hdb, hresp⟩ := hcr
                subst hdb
                exact ⟨_, rfl, hresp.symm⟩
          · simp [create_new_bookmark, ho, hn, h', hv, hy] at hcr
            obtain ⟨hdb, hresp⟩ := hcr
            subst hdb
            exact ⟨_, rfl, hresp.symm⟩
        · have hv' : validPlatform ing.platform = false := by simpa using hv
          simp [create_new_bookmark, ho, hn, h', hv'] at hcr

theorem get_tiktok_empty_of_none (url : String)
    (h : get_ingestor url = none) : get_tiktok_ingestors url = [] := by
  unfold get_ingestor at h
  rw [List.find?_eq_none] at h
  unfold get_tiktok_ingestors
  rw [List.filter_eq_nil_iff]
  intro a ha
  simp [h a ha]

theorem validPlatform_detect (url : String) :
    validPlatform (detect_platform url) = true := by
  unfold detect_platform
  dsimp only
  repeat' split
  all_goals rfl

theorem add_bookmark_precheck_dup (oracle : Oracle) (url : String) (uid : Nat)
    (db : DB) (ing : Ingestor)
    (hpath : (pyContains (pyLower url) "tiktok.com" &&
        !(get_tiktok_ingestors url).isEmpty) = false)
    (hing : get_ingestor url = some ing)
    (hex : find_existing db url uid ≠ none) :
    add_bookmark oracle url uid db = (db, .error (.valueError dupMsg)) := by
  rcases hfe : find_existing db url uid with _ | b
  · exact absurd hfe hex
  · simp [add_bookmark, hpath, hing, hfe, pyWrapErrors]

/-!  ## Claims -/

/-- C1 (counterexample): with `api/models.py`'s schema the `url` unique
constraint is table-wide, not per user — after user 1 bookmarks a URL,
user 2's attempt to bookmark the *same* URL hits the unique index and is
rejected as a duplicate, so two different users can *not* each hold a
bookmark for the same URL. -/
theorem url_unique_cross_user_cex :
    dbBlog1.bookmarks.map (fun b => (b.user_id, b.url)) = [(1, urlBlog)]
  ∧ (add_bookmark oracleUnused urlBlog 2 dbBlog1).2 = .error (.valueError dupMsg)
  ∧ (add_bookmark oracleUnused urlBlog 2 dbBlog1).1 = dbBlog1 := by
  refine ⟨by decide, by decide, by decide⟩

/-- C1 (amended): URL uniqueness is enforced table-wide: any creation
attempt for a URL already present — for *any* owner — fails and leaves
the store unchanged; consequently pairwise-distinct URLs are preserved by
every `add_bookmark`, which implies the invariant that no two bookmarks
share `(user_id, url)` (a fortiori). -/
theorem url_globally_unique (oracle : Oracle) (url : String) (uid : Nat)
    (db : DB) :
    (db.bookmarks.any (fun b => b.url == url) = true →
      (add_bookmark oracle url uid db).1 = db ∧
      ∃ m, (add_bookmark oracle url uid db).2 = .error m)
  ∧ (db.bookmarks.Pairwise (fun a b => a.url ≠ b.url) →
      (add_bookmark oracle url uid db).1.bookmarks.Pairwise
        (fun a b => a.url ≠ b.url))
  ∧ (db.bookmarks.Pairwise (fun a b => a.url ≠ b.url) →
      db.bookmarks.Pairwise
        (fun a b => ¬(a.user_id = b.user_id ∧ a.url = b.url))) := by
  refine ⟨fun h => add_bookmark_url_conflict oracle url uid db h,
          fun h => add_bookmark_pairwise_urls oracle url uid db h,
          fun h => h.imp ?_⟩
  intro a b hne hc
  exact hne hc.2

theorem url_globally_unique_witness :
    (add_bookmark oracleUnused urlBlog 2 dbBlog1).1 = dbBlog1 ∧
    ∃ m, (add_bookmark oracleUnused urlBlog 2 dbBlog1).2 = .error m :=
  (url_globally_unique oracleUnused urlBlog 2 dbBlog1).1 (by decide)

/-- C5 (counterexample): the generic social-platform normalizer
(`SocialMediaIngestor.normalize_metadata`) does **not** fail on raw data
lacking a content id — it returns a record with `content_id = None`. -/
theorem social_normalize_never_fails_cex :
    ({} : SocialRaw).content_id = none
  ∧ socialNormalizeMeta "instagram" (.social {}) = .ok
      { title := some "Instagram Link", author := none,
        thumbnail_url := none, description := none, published_at := none,
        platform_specific := .social none none none none false } := by
  refine ⟨rfl, by decide⟩

/-- C5 (amended): the YouTube, TikTok-API and Playwright-TikTok
normalizers fail exactly when the raw video id is absent or
whitespace-empty, and a normalization failure persists no row (the store
is returned unchanged with the error); the generic social-platform
normalizers never fail, content id or not. -/
theorem normalize_video_id_enforcement :
    (∀ r : YouTubeRaw, (∃ e, youtubeNormalizeMeta (.youtube r) = .error e) ↔
        pyStrip (r.id.getD "") = "")
  ∧ (∀ r : TikTokRaw, (∃ e, tiktokApiNormalizeMeta (.tiktok r) = .error e) ↔
        pyStrip r.video_data.id = "")
  ∧ (∀ r : TikTokRaw, (∃ e, tiktokWebNormalizeMeta (.tiktok r) = .error e) ↔
        pyStrip r.video_data.id = "")
  ∧ (∀ (p : String) (r : RawData), ∃ n, socialNormalizeMeta p r = .ok n)
  ∧ (∀ (oracle : Oracle) (ing : Ingestor) (url : String) (uid : Nat)
       (db : DB) (raw : RawData) (e : String),
        oracle ing.name url = .ok raw →
        ing.normalize_metadata raw = .error e →
        create_new_bookmark oracle ing url uid db
          = (db, .error (.valueError e))) := by
  refine ⟨?_, ?_, ?_, ?_, ?_⟩
  · intro r
    constructor
    · rintro ⟨e, he⟩
      by_cases h : pyStrip (r.id.getD "") = ""
      · exact h
      · simp [youtubeNormalizeMeta, youtubeNormalize, h] at he
    · intro h
      exact ⟨"Failed to normalize metadata: No video ID found in metadata",
        by simp [youtubeNormalizeMeta, youtubeNormalize, h]⟩
  · intro r
    constructor
    · rintro ⟨e, he⟩
      by_cases h : pyStrip r.video_data.id = ""
      · exact h
      · simp [tiktokApiNormalizeMeta, tiktokNormalizeCore, h] at he
    · intro h
      exact ⟨"Failed to normalize metadata: No video ID found in metadata",
        by simp [tiktokApiNormalizeMeta, tiktokNormalizeCore, h]⟩
  · intro r
    constructor
    · rintro ⟨e, he⟩
      by_cases h : pyStrip r.video_data.id = ""
      · exact h
      · simp [tiktokWebNormalizeMeta, tiktokNormalizeCore, h] at he
    · intro h
      exact ⟨"Failed to normalize metadata: No video ID found in metadata",
        by simp [tiktokWebNormalizeMeta, tiktokNormalizeCore, h]⟩
  · intro p r
    cases r <;> exact ⟨_, rfl⟩
  · intro oracle ing url uid db raw e ho hn
    simp [create_new_bookmark, ho, hn]

theorem normalize_video_id_enforcement_witness :
    (∃ e, youtubeNormalizeMeta (.youtube {}) = .error e)
  ∧ (∃ n, socialNormalizeMeta "reddit" (.social {}) = .ok n) :=
  ⟨(normalize_video_id_enforcement.1 {}).mpr (by decide),
   normalize_video_id_enforcement.2.2.2.1 "reddit" (.social {})⟩

/-- C9: every response for a bookmark whose platform is not `"youtube"`
carries an empty `meta` — in `_format_bookmark_response`, in the
`list_bookmarks` row builder, and in the envelope returned by a
successful non-YouTube `_create_new_bookmark`; the TikTok normalizers'
`platform_specific` data never reaches a caller. -/
theorem non_youtube_meta_empty :
    (∀ (db : DB) (b : BookmarkRow), b.platform ≠ "youtube" →
        (format_bookmark_response db b).meta = none)
  ∧ (∀ (db : DB) (b : BookmarkRow), b.platform ≠ "youtube" →
        (list_bookmark_row db b).meta = none)
  ∧ (∀ (db : DB) (uid : Nat), ∀ r ∈ list_bookmarks_rows db uid,
        r.platform ≠ "youtube" → r.meta = none)
  ∧ (∀ (oracle : Oracle) (ing : Ingestor) (url : String) (uid : Nat)
       (db d : DB) (resp : BookmarkResponse), ing.platform ≠ "youtube" →
        create_new_bookmark oracle ing url uid db = (d, .ok resp) →
        resp.meta = none) := by
  refine ⟨fun db b h => format_meta_none db b h,
          fun db b h => list_row_meta_none db b h, ?_, ?_⟩
  · intro db uid r hr hplat
    obtain ⟨b, _, hb⟩ := List.mem_map.mp hr
    subst hb
    exact list_row_meta_none db b hplat
  · intro oracle ing url uid db d resp hplat hcr
    obtain ⟨bm, hbp, hresp⟩ := create_new_ok_resp oracle ing url uid db d resp hcr
    subst hresp
    exact format_meta_none d bm (hbp ▸ hplat)

theorem non_youtube_meta_empty_witness :
    (format_bookmark_response dbTT
      { id := 1, platform := "tiktok", url := urlTT,
        created_at := "2026-01-01T00:00:00", raw := .empty,
        user_id := 1 }).meta = none :=
  non_youtube_meta_empty.1 dbTT
    { id := 1, platform := "tiktok", url := urlTT,
      created_at := "2026-01-01T00:00:00", raw := .empty, user_id := 1 }
    (by decide)

/-- C10: the TikTok-API ingestor memoizes successful extractions in the
module-level cache, consulted before the availability flag: a cached URL
returns the identical cached raw result with the state untouched (even
when `_api_available` is false), a successful miss is inserted under the
URL's key, and no call ever evicts an existing entry. -/
theorem metadata_cache_semantics :
    (∀ init fetch s (url : String) r,
        lookupCache s.cache (cacheKey url) = some r →
        tiktok_api_extract_metadata init fetch s url = (s, .ok r))
  ∧ (∀ init fetch s (url : String) r,
        lookupCache s.cache (cacheKey url) = none →
        (tiktok_api_extract_metadata init fetch s url).2 = .ok r →
        lookupCache (tiktok_api_extract_metadata init fetch s url).1.cache
          (cacheKey url) = some r)
  ∧ (∀ init fetch s (url k : String) r, lookupCache s.cache k = some r →
        lookupCache (tiktok_api_extract_metadata init fetch s url).1.cache k
          = some r) := by
  refine ⟨?_, ?_, ?_⟩
  · intro init fetch s url r h
    simp [tiktok_api_extract_metadata, h]
  · intro init fetch s url r hmiss hok
    by_cases ha : s.apiAvailable = true
    · rcases hi : (if s.initialized then Except.ok () else init :
          Except String Unit) with e | u
      · simp [tiktok_api_extract_metadata, hmiss, ha, hi] at hok
      · rcases hf : fetch url with e | raw
        · simp [tiktok_api_extract_metadata, hmiss, ha, hi, hf] at hok
        · simp [tiktok_api_extract_metadata, hmiss, ha, hi, hf] at hok ⊢
          simp [lookupCache, hok]
    · have ha' : s.apiAvailable = false := by simpa using ha
      simp [tiktok_api_extract_metadata, hmiss, ha'] at hok
  · intro init fetch s url k r h
    by_cases hm : lookupCache s.cache (cacheKey url) = none
    · by_cases ha : s.apiAvailable = true
      · rcases hi : (if s.initialized then Except.ok () else init :
            Except String Unit) with e | u
        · simp [tiktok_api_extract_metadata, hm, ha, hi, h]
        · rcases hf : fetch url with e | raw
          · simp [tiktok_api_extract_metadata, hm, ha, hi, hf, h]
          · have hres : (tiktok_api_extract_metadata init fetch s url).1.cache
                = (cacheKey url, raw) :: s.cache := by
              simp [tiktok_api_extract_metadata, hm, ha, hi, hf]
            have hk : (cacheKey url == k) = false := by
              by_cases hek : cacheKey url = k
              · rw [hek] at hm
                rw [hm] at h
                cases h
              · simp [hek]
            rw [hres]
            simpa [lookupCache, List.find?, hk] using h
      · have ha' : s.apiAvailable = false := by simpa using ha
        simp [tiktok_api_extract_metadata, hm, ha', h]
    · rcases hs : lookupCache s.cache (cacheKey url) with _ | r2
      · exact absurd hs hm
      · simp [tiktok_api_extract_metadata, hs, h]

theorem metadata_cache_semantics_witness :
    tiktok_api_extract_metadata (.error "down") ttFetchDead
      ttStateCached urlTT = (ttStateCached, .ok rawTT) :=
  metadata_cache_semantics.1 (.error "down") ttFetchDead ttStateCached urlTT
    rawTT (by decide)

/-- C6 (counterexample): the orchestrator surfaces both the duplicate
outcome and a validation-type outcome as the *same* exception class
(`ValueError`); the boundary separates 409 from 422 only by inspecting
the message string for `"already"` and `"bookmarked"` — the typed result
alone cannot distinguish them. -/
theorem error_taxonomy_string_sniffing_cex :
    (add_bookmark oracleUnused urlBlog 2 dbBlog1).2
      = .error (.valueError dupMsg)
  ∧ (add_bookmark oracleBothFail urlTT 1 {}).2
      = .error (.valueError "All TikTok ingestors failed")
  ∧ http_status_of (.valueError dupMsg) = 409
  ∧ http_status_of (.valueError "All TikTok ingestors failed") = 422 := by
  refine ⟨by decide, by decide, by decide, by decide⟩

/-- C6 (amended): the boundary obtains 500 from the exception type alone
(`RuntimeError`/other), but separates duplicate (409) from validation
failure (422) by substring-inspecting the `ValueError` message; under
that mapping the orchestrator's pre-check duplicate yields 409 on the
single-ingestor path while a duplicate on the TikTok chain path yields
422 (surfaced as chain exhaustion). -/
theorem http_status_mapping :
    (∀ m, http_status_of (.runtimeError m) = 500)
  ∧ (∀ m, http_status_of (.otherError m) = 500)
  ∧ (∀ (oracle : Oracle) (url : String) (uid : Nat) (db : DB) (ing : Ingestor),
        (pyContains (pyLower url) "tiktok.com" &&
           !(get_tiktok_ingestors url).isEmpty) = false →
        get_ingestor url = some ing →
        find_existing db url uid ≠ none →
        response_status (add_bookmark oracle url uid db).2 = 409)
  ∧ (∀ (oracle : Oracle) (url : String) (uid : Nat) (db : DB),
        (pyContains (pyLower url) "tiktok.com" &&
           !(get_tiktok_ingestors url).isEmpty) = true →
        db.bookmarks.any (fun b => b.url == url) = true →
        response_status (add_bookmark oracle url uid db).2 = 422) := by
  refine ⟨fun m => rfl, fun m => rfl, ?_, ?_⟩
  · intro oracle url uid db ing hpath hing hex
    rw [add_bookmark_precheck_dup oracle url uid db ing hpath hing hex]
    rfl
  · intro oracle url uid db ht hurl
    have hc := try_chain_all_conflict oracle url uid db hurl
      (get_tiktok_ingestors url)
    simp [add_bookmark, ht, hc, pyWrapErrors, response_status]
    decide

theorem http_status_mapping_witness :
    response_status (add_bookmark oracleUnused urlYT 1 dbYT).2 = 409 :=
  http_status_mapping.2.2.1 oracleUnused urlYT 1 dbYT youtubeIngestor
    (by decide) rfl (by decide)

/-- C8 (counterexample): after the TikTok-API ingestor marks itself
unavailable, an extract call for a URL whose result was cached earlier
still **succeeds** from the cache (the cache is consulted before the
availability flag), so not every subsequent extract call fails fast. -/
theorem circuit_breaker_cached_success_cex :
    (tiktok_api_extract_metadata (.ok ()) ttFetch1 ttS1 urlTT2).2
      = .error "TikTokApi metadata extraction failed: upstream timeout"
  ∧ ttS2.apiAvailable = false
  ∧ (tiktok_api_extract_metadata (.error "init dead") ttFetchDead
       ttS2 urlTT).2 = .ok rawTT := by
  refine ⟨by decide, by decide, by decide⟩

/-- C8 (amended): any failing extract call leaves the availability flag
down, the flag never comes back up within the process lifetime, and once
it is down every extract call for a URL **not in the memoization cache**
fails fast with the fallback error, identically for every initialization
and remote-fetch behavior (the remote API is not attempted); calls for
cached URLs still return the cached success. -/
theorem circuit_breaker_behavior :
    (∀ init fetch s (url : String) e,
        (tiktok_api_extract_metadata init fetch s url).2 = .error e →
        (tiktok_api_extract_metadata init fetch s url).1.apiAvailable = false)
  ∧ (∀ init fetch s (url : String),
        (tiktok_api_extract_metadata init fetch s url).1.apiAvailable = true →
        s.apiAvailable = true)
  ∧ (∀ s (url : String), s.apiAvailable = false →
        lookupCache s.cache (cacheKey url) = none →
        ∀ init fetch, tiktok_api_extract_metadata init fetch s url =
          (s, .error "TikTokApi is not available, falling back to Playwright ingestor")) := by
  refine ⟨?_, ?_, ?_⟩
  · intro init fetch s url e herr
    rcases hs : lookupCache s.cache (cacheKey url) with _ | r
    · by_cases ha : s.apiAvailable = true
      · rcases hi : (if s.initialized then Except.ok () else init :
            Except String Unit) with e2 | u
        · simp [tiktok_api_extract_metadata, hs, ha, hi]
        · rcases hf : fetch url with e2 | raw
          · simp [tiktok_api_extract_metadata, hs, ha, hi, hf]
          · simp [tiktok_api_extract_metadata, hs, ha, hi, hf] at herr
      · have ha' : s.apiAvailable = false := by simpa using ha
        simp [tiktok_api_extract_metadata, hs, ha']
    · simp [tiktok_api_extract_metadata, hs] at herr
  · intro init fetch s url hpost
    by_contra hne
    have ha' : s.apiAvailable = false := by simpa using hne
    rcases hs : lookupCache s.cache (cacheKey url) with _ | r
    · simp [tiktok_api_extract_metadata, hs, ha'] at hpost
    · simp [tiktok_api_extract_metadata, hs, ha'] at hpost
  · intro s url ha hmiss init fetch
    simp [tiktok_api_extract_metadata, hmiss, ha]

theorem circuit_breaker_behavior_witness :
    tiktok_api_extract_metadata (.ok ()) ttFetch1 ttS2 urlTT2 =
      (ttS2, .error "TikTokApi is not available, falling back to Playwright ingestor") :=
  circuit_breaker_behavior.2.2 ttS2 urlTT2 (by decide) (by decide)
    (.ok ()) ttFetch1

/-- C2 (counterexample): a duplicate for the same user on the TikTok
chain path is *not* surfaced as the duplicate condition: the chain loop's
`except Exception: continue` swallows the insert-time duplicate
`ValueError` of every member, and the caller sees
`"All TikTok ingestors failed"` — while the identical insert-time
detection on the single-ingestor path (user 2 re-saving user 1's YouTube
URL) does surface the duplicate message. -/
theorem chain_swallows_duplicate_cex :
    find_existing dbTT urlTT 1 ≠ none
  ∧ (add_bookmark oracleApiOk urlTT 1 dbTT).2
      = .error (.valueError "All TikTok ingestors failed")
  ∧ (add_bookmark oracleYtOk urlYT 2 dbYT).2 = .error (.valueError dupMsg)
  ∧ ("All TikTok ingestors failed" : String) ≠ dupMsg := by
  refine ⟨by decide, by decide, by decide, by decide⟩

/-- C2 (amended): the pre-emptive check and the insert-time
unique-violation surface the identical duplicate `ValueError` on the
single-ingestor path, and the insert-time violation does so on the
basic-bookmark path; but on the TikTok chain path a duplicate is
surfaced as the chain-exhaustion validation error
`"All TikTok ingestors failed"`, not as the duplicate condition. -/
theorem duplicate_condition_by_path :
    (∀ (oracle : Oracle) (url : String) (uid : Nat) (db : DB) (ing : Ingestor),
        (pyContains (pyLower url) "tiktok.com" &&
           !(get_tiktok_ingestors url).isEmpty) = false →
        get_ingestor url = some ing →
        find_existing db url uid ≠ none →
        (add_bookmark oracle url uid db).2 = .error (.valueError dupMsg))
  ∧ (∀ (oracle : Oracle) (url : String) (uid : Nat) (db : DB) (ing : Ingestor)
       (raw : RawData) (n : Normalized),
        (pyContains (pyLower url) "tiktok.com" &&
           !(get_tiktok_ingestors url).isEmpty) = false →
        get_ingestor url = some ing →
        find_existing db url uid = none →
        db.bookmarks.any (fun b => b.url == url) = true →
        oracle ing.name url = .ok raw →
        ing.normalize_metadata raw = .ok n →
        (add_bookmark oracle url uid db).2 = .error (.valueError dupMsg))
  ∧ (∀ (oracle : Oracle) (url : String) (uid : Nat) (db : DB),
        get_ingestor url = none →
        db.bookmarks.any (fun b => b.url == url) = true →
        (add_bookmark oracle url uid db).2 = .error (.valueError dupMsg))
  ∧ (∀ (oracle : Oracle) (url : String) (uid : Nat) (db : DB),
        (pyContains (pyLower url) "tiktok.com" &&
           !(get_tiktok_ingestors url).isEmpty) = true →
        db.bookmarks.any (fun b => b.url == url) = true →
        (add_bookmark oracle url uid db).2
          = .error (.valueError "All TikTok ingestors failed")) := by
  refine ⟨?_, ?_, ?_, ?_⟩
  · intro oracle url uid db ing hpath hing hex
    rw [add_bookmark_precheck_dup oracle url uid db ing hpath hing hex]
  · intro oracle url uid db ing raw n hpath hing hfe hurl ho hn
    simp [add_bookmark, hpath, hing, hfe, create_new_bookmark, ho, hn,
      hurl, pyWrapErrors]
  · intro oracle url uid db hnone hurl
    have hpath : (pyContains (pyLower url) "tiktok.com" &&
        !(get_tiktok_ingestors url).isEmpty) = false := by
      rw [get_tiktok_empty_of_none url hnone]
      simp
    simp [add_bookmark, hpath, hnone,
      create_basic_url_conflict url uid db hurl, pyWrapErrors]
  · intro oracle url uid db ht hurl
    have hc := try_chain_all_conflict oracle url uid db hurl
      (get_tiktok_ingestors url)
    simp [add_bookmark, ht, hc, pyWrapErrors]

theorem duplicate_condition_by_path_witness :
    (add_bookmark oracleUnused urlBlog 2 dbBlog1).2
      = .error (.valueError dupMsg) :=
  duplicate_condition_by_path.2.2.1 oracleUnused urlBlog 2 dbBlog1
    rfl (by decide)

/-- C3 (counterexample): for a TikTok URL already bookmarked by the same
user, the orchestrator does *not* perform the `(user_id, url)` lookup
first — the chain is dispatched, every member is attempted, and the
request fails with the chain-exhaustion error instead of the duplicate
condition. -/
theorem precheck_not_first_cex :
    find_existing dbTT urlTT 1 ≠ none
  ∧ (add_bookmark oracleBothFail urlTT 1 dbTT).2
      = .error (.valueError "All TikTok ingestors failed")
  ∧ (add_bookmark oracleBothFail urlTT 1 dbTT).2
      ≠ .error (.valueError dupMsg) := by
  refine ⟨by decide, by decide, by decide⟩

/-- C3 (amended): the pre-emptive `(user_id, url)` lookup runs only on
the single-ingestor path, after ingestor selection but before extraction
and persistence: when it finds an existing bookmark the request fails
with the duplicate condition, the store is unchanged, and the result is
the same for every extraction oracle (extraction is never consulted).
The TikTok-chain and basic-bookmark paths skip this lookup and rely on
the insert-time unique constraint. -/
theorem duplicate_precheck_single_path (url : String) (uid : Nat) (db : DB)
    (ing : Ingestor)
    (hpath : (pyContains (pyLower url) "tiktok.com" &&
        !(get_tiktok_ingestors url).isEmpty) = false)
    (hing : get_ingestor url = some ing)
    (hex : find_existing db url uid ≠ none) :
    ∀ oracle : Oracle,
      add_bookmark oracle url uid db = (db, .error (.valueError dupMsg)) :=
  fun oracle => add_bookmark_precheck_dup oracle url uid db ing hpath hing hex

theorem duplicate_precheck_single_path_witness :
    add_bookmark oracleBothFail urlYT 1 dbYT
      = (dbYT, .error (.valueError dupMsg)) :=
  duplicate_precheck_single_path urlYT 1 dbYT youtubeIngestor
    (by decide) rfl (by decide) oracleBothFail

/-- C4: chain-of-alternatives semantics on the TikTok path, for a store
not yet holding the URL: (a) a successful first member short-circuits —
the remaining members are irrelevant to the result; (b) a failed member
passes control to the rest with the store unchanged; (c) a member whose
extract and normalize both succeed yields exactly that member's
normalized output, persisted as the new row; (d) if every member's
attempt fails the chain raises `"All TikTok ingestors failed"` with no
row created; (e) `add_bookmark` on a TikTok URL with a non-empty chain
is exactly the chain result (errors rewrapped). -/
theorem tiktok_chain_policy (oracle : Oracle) (url : String) (uid : Nat)
    (db : DB)
    (hclean : db.bookmarks.any (fun b => b.url == url) = false) :
    (∀ (ing : Ingestor) (rest : List Ingestor) (db2 : DB)
       (resp : BookmarkResponse),
        create_new_bookmark oracle ing url uid db = (db2, .ok resp) →
        try_tiktok_chain oracle url uid db (ing :: rest) = (db2, .ok resp))
  ∧ (∀ (ing : Ingestor) (rest : List Ingestor) (d : DB) (e : PyError),
        create_new_bookmark oracle ing url uid db = (d, .error e) →
        try_tiktok_chain oracle url uid db (ing :: rest)
          = try_tiktok_chain oracle url uid db rest)
  ∧ (∀ (ing : Ingestor) (raw : RawData) (n : Normalized),
        ing.platform = "tiktok" →
        oracle ing.name url = .ok raw →
        ing.normalize_metadata raw = .ok n →
        create_new_bookmark oracle ing url uid db =
          ({ db with
             bookmarks := db.bookmarks ++
               [{ id := db.nextId, platform := ing.platform, url := url,
                  title := n.title, author := n.author,
                  thumbnail_url := n.thumbnail_url,
                  description := n.description, note := none,
                  published_at := n.published_at, created_at := db.now,
                  raw := .data raw, user_id := uid }]
             nextId := db.nextId + 1 },
           .ok { id := db.nextId, platform := ing.platform, url := url,
                 title := n.title, author := n.author,
                 thumbnail_url := n.thumbnail_url, note := none,
                 published_at := n.published_at, created_at := db.now,
                 meta := none }))
  ∧ (∀ chain : List Ingestor,
        (∀ ing ∈ chain, ∃ (d : DB) (e : PyError),
            create_new_bookmark oracle ing url uid db = (d, .error e)) →
        try_tiktok_chain oracle url uid db chain
          = (db, .error (.valueError "All TikTok ingestors failed")))
  ∧ ((pyContains (pyLower url) "tiktok.com" &&
        !(get_tiktok_ingestors url).isEmpty) = true →
      add_bookmark oracle url uid db =
        ((try_tiktok_chain oracle url uid db (get_tiktok_ingestors url)).1,
         pyWrapErrors
           (try_tiktok_chain oracle url uid db (get_tiktok_ingestors url)).2)) := by
  refine ⟨?_, ?_, ?_, ?_, ?_⟩
  · intro ing rest db2 resp hcr
    simp [try_tiktok_chain, hcr]
  · intro ing rest d e hcr
    simp [try_tiktok_chain, hcr]
  · intro ing raw n hplat ho hn
    have hv : validPlatform ing.platform = true := by rw [hplat]; decide
    have hy : (ing.platform == "youtube") = false := by rw [hplat]; decide
    simp [create_new_bookmark, ho, hn, hclean, hv, hy,
      format_bookmark_response, ytDetailsFor]
  · intro chain hall
    induction chain with
    | nil => rfl
    | cons ing rest ih =>
      obtain ⟨d, e, he⟩ := hall ing (List.mem_cons_self ing rest)
      simp [try_tiktok_chain, he,
        ih (fun i hi => hall i (List.mem_cons_of_mem ing hi))]
  · intro ht
    simp [add_bookmark, ht]

theorem tiktok_chain_policy_witness :
    add_bookmark oracleWebOk urlTT 1 {} =
      ({ bookmarks :=
           [{ id := 1, platform := "tiktok", url := urlTT,
              title := some "hello world", author := some "alice",
              description := some "hello world", created_at := "",
              raw := .data (.tiktok rawTT), user_id := 1 }]
         youtube_details := [], nextId := 2, now := "" },
       .ok { id := 1, platform := "tiktok", url := urlTT,
             title := some "hello world", author := some "alice",
             created_at := "", meta := none }) := by
  obtain ⟨ha, hb, hc, hd, he⟩ := tiktok_chain_policy oracleWebOk urlTT 1 {} rfl
  have hstep1 : create_new_bookmark oracleWebOk tikTokApiIngestor urlTT 1 {}
      = ({}, .error (.valueError
          "TikTokApi session creation timed out - falling back to Playwright")) := by
    decide
  have hstep2 : create_new_bookmark oracleWebOk tikTokIngestor urlTT 1 {}
      = ({ bookmarks :=
             [{ id := 1, platform := "tiktok", url := urlTT,
                title := some "hello world", author := some "alice",
                description := some "hello world", created_at := "",
                raw := .data (.tiktok rawTT), user_id := 1 }]
           youtube_details := [], nextId := 2, now := "" },
         .ok { id := 1, platform := "tiktok", url := urlTT,
               title := some "hello world", author := some "alice",
               created_at := "", meta := none }) := by
    decide
  have hlist : get_tiktok_ingestors urlTT = [tikTokApiIngestor, tikTokIngestor] := rfl
  rw [he (by decide), hlist, hb tikTokApiIngestor [tikTokIngestor] _ _ hstep1,
    ha tikTokIngestor [] _ _ hstep2]
  rfl

/-- C7 (counterexample): a URL matched by no ingestor's `can_handle` can
still carry a recognized platform substring — the schemeless
`youtube.com/...` URL fails every `can_handle` (no scheme), yet the
basic bookmark is stored with the classifier's tag `"youtube"`, not
`"other"`. -/
theorem basic_fallback_platform_cex :
    (get_ingestor urlYTBare).isNone = true
  ∧ (add_bookmark oracleUnused urlYTBare 1 {}).2 = .ok
      { id := 1, platform := "youtube", url := urlYTBare,
        created_at := "", meta := none }
  ∧ detect_platform urlYTBare = "youtube"
  ∧ ("youtube" : String) ≠ "other" := by
  refine ⟨by decide, by decide, by decide, by decide⟩

/-- C7 (amended): for a URL matched by no ingestor (and not already
saved), bookmark creation succeeds with a basic bookmark whose platform
tag is the classifier's output `_detect_platform(url)` — which is
`"other"` only when no known domain substring occurs — with empty
enrichment fields (`title`, `author`, `thumbnail_url`, `description`,
`published_at` all `NULL`), the empty raw payload `'{}'`, an empty
`meta`, and no platform-details row created (the details table is
untouched).  The `hfresh` hypothesis states the fresh autoincrement id
has no stale details row, which holds in every reachable store. -/
theorem basic_fallback (oracle : Oracle) (url : String) (uid : Nat) (db : DB)
    (hnone : get_ingestor url = none)
    (hclean : db.bookmarks.any (fun b => b.url == url) = false)
    (hfresh : ytDetailsFor db db.nextId = none) :
    add_bookmark oracle url uid db =
      ({ db with
         bookmarks := db.bookmarks ++
           [{ id := db.nextId, platform := detect_platform url, url := url,
              created_at := db.now, raw := .empty, user_id := uid }]
         nextId := db.nextId + 1 },
       .ok { id := db.nextId, platform := detect_platform url, url := url,
             title := none, author := none, thumbnail_url := none,
             note := none, published_at := none, created_at := db.now,
             meta := none })
  ∧ (add_bookmark oracle url uid db).1.youtube_details
      = db.youtube_details := by
  have hempty := get_tiktok_empty_of_none url hnone
  have hpath : (pyContains (pyLower url) "tiktok.com" &&
      !(get_tiktok_ingestors url).isEmpty) = false := by
    rw [hempty]
    simp
  have hv := validPlatform_detect url
  have hfr : db.youtube_details.find?
      (fun d => d.bookmark_id == db.nextId) = none := by
    simpa [ytDetailsFor] using hfresh
  constructor
  · simp [add_bookmark, hpath, hnone, create_basic_bookmark, hclean, hv,
      pyWrapErrors, format_bookmark_response, ytDetailsFor, hfr]
  · simp [add_bookmark, hpath, hnone, create_basic_bookmark, hclean, hv]

theorem basic_fallback_witness :
    add_bookmark oracleUnused urlBlog 1 {} =
      ({ bookmarks :=
           [{ id := 1, platform := detect_platform urlBlog, url := urlBlog,
              created_at := "", raw := .empty, user_id := 1 }],
         youtube_details := [], nextId := 2, now := "" },
       .ok { id := 1, platform := detect_platform urlBlog, url := urlBlog,
             created_at := "", meta := none }) :=
  (basic_fallback oracleUnused urlBlog 1 {} rfl rfl rfl).1

end Sava
